import Mathlib

/-!
Shallow embedding of the `fix_food_name` repository: a semantic menu-item
lookup system.  Source files embedded here:

- `app.py` — the query resolver `search_similar_item` (namespace `App`);
- `migrate_to_qdrant.py` — the Gemini-based rebuild `migrate_data`
  (namespace `Migrate`);
- `migrate_to_qdrant_with_azure.py` — the Azure-based rebuild `migrate_data`
  (namespace `MigrateAzure`).

External collaborators (the Qdrant vector index, the relational catalog
backends, and the embedding providers) are modelled by explicit state and
function parameters following the contracts the code relies on:

- the Qdrant store is a finite map from collection names to collections of
  points; `recreate_collection` replaces, `upsert` appends, `search` with
  `limit=1` returns the highest-scoring point under a similarity function
  `sim` supplied as a parameter (Qdrant computes cosine similarity
  internally; its scoring is outside this repository, so it is a parameter);
- a catalog connection carries the raw rows of `menu_items.item_name` and a
  flag saying whether executing the `SELECT DISTINCT` query raises;
  `SELECT DISTINCT` itself is modelled as first-occurrence de-duplication
  of the raw rows;
- an embedding provider is a function from texts to vectors; batch calls
  may fail (`Option`), modelling the `try/except` around them.

Machine floats are modelled as rationals; vectors as `List ℚ`.
-/

set_option autoImplicit false

namespace FixFoodName

/-- An embedding vector: ordered sequence of numbers (floats modelled as ℚ). -/
abbrev Vec := List ℚ

/-- One Qdrant point: `PointStruct(id=..., vector=..., payload={"item_name": ...})`.
Fresh ids are generated per rebuild; we model the fresh uuid of the i-th
point of a rebuild as the index i. -/
structure Point where
  pid : Nat
  vector : Vec
  item_name : String
deriving Repr, DecidableEq

/-- A Qdrant collection: its configured vector size plus its points.
The distance metric is always cosine in this system, so it is not a field. -/
structure Collection where
  vectorSize : Nat
  points : List Point
deriving Repr, DecidableEq

/-- The Qdrant store: a finite association of collection names to collections. -/
abbrev Store := List (String × Collection)

/-- Look a collection up by name (Qdrant `get_collection`; `none` models the
collection being absent, which makes `get_collection` raise). -/
def storeFind (s : Store) (n : String) : Option Collection :=
  match s with
  | [] => none
  | (n', c) :: rest => if n' = n then some c else storeFind rest n

/-- Replace (or create) the named collection (Qdrant `recreate_collection`
followed by `upsert` is modelled as setting the full new contents). -/
def storeSet (s : Store) (n : String) (c : Collection) : Store :=
  match s with
  | [] => [(n, c)]
  | (n', c') :: rest => if n' = n then (n, c) :: rest else (n', c') :: storeSet rest n c

/-- A catalog database connection: the raw `menu_items.item_name` rows it
would return, and whether executing the distinct-names query raises. -/
structure DBConn where
  rows : List String
  queryFails : Bool
deriving Repr, DecidableEq

/-- The configuration environment the two migration scripts read:
`dbType` is the value of `os.getenv("DB_TYPE", "sqlserver")` (default already
applied), and each backend field is the outcome of its `_connect_*` helper
(`none` models a connection failure, which those helpers turn into `None`). -/
structure DbEnv where
  dbType : String
  sqlserver : Option DBConn
  mysql : Option DBConn

/-- Outcome of `get_db_connection` in either migration script.  The code
returns `None` both for an unsupported `DB_TYPE` and for a failed connect,
but prints distinct messages; the unsupported-backend message names the
offending (lowercased) key, which the `unsupportedBackend` payload records. -/
inductive ConnResult where
  | unsupportedBackend (key : String)
  | connectFailed
  | connected (conn : DBConn)
deriving Repr, DecidableEq

/-- Where a `migrate_data` run stopped.  Each early `return` of the Python
code is one constructor; `queryError` is the uncaught exception raised by
`cursor.execute` propagating out of the function. -/
inductive MigrateOutcome where
  | geminiConfigError
  | dbConnectionError
  | queryError
  | emptyCatalog
  | embedError
  | qdrantError
  | upsertError
  | done
deriving Repr, DecidableEq

/-- Result of a `migrate_data` run: how it ended, the final Qdrant store, and
whether the catalog connection was opened resp. closed during the run. -/
structure MigrateResult where
  outcome : MigrateOutcome
  store : Store
  connOpened : Bool
  connClosed : Bool
deriving Repr, DecidableEq

/-- First-occurrence de-duplication: the model of executing
`SELECT DISTINCT item_name FROM menu_items;` over the raw rows. -/
def distinctNames (rows : List String) : List String :=
  rows.foldl (fun acc a => if a ∈ acc then acc else acc ++ [a]) []

/-- Python `str.lower()` on the configuration keys in play (ASCII); written
over the character list so that it evaluates by kernel reduction. -/
def lowerString (s : String) : String := ⟨s.data.map Char.toLower⟩

namespace Migrate

/-- Collection name written by `migrate_to_qdrant.py` (line 15). -/
def COLLECTION_NAME : String := "taiwan_food_menu"

/-- Hardcoded vector size of `migrate_to_qdrant.py` (line 16). -/
def VECTOR_SIZE : Nat := 768

/-- Embeds `get_db_connection` of `migrate_to_qdrant.py`: lowercase the
`DB_TYPE` key, look it up in `DB_CONNECTORS` ({"sqlserver", "mysql"}), report
an unsupported key, otherwise run the backend's connect helper. -/
def get_db_connection (env : DbEnv) : ConnResult :=
  let db_type := lowerString env.dbType
  if db_type = "sqlserver" then
    match env.sqlserver with
    | some conn => .connected conn
    | none => .connectFailed
  else if db_type = "mysql" then
    match env.mysql with
    | some conn => .connected conn
    | none => .connectFailed
  else .unsupportedBackend db_type

/-- Embeds `migrate_data` of `migrate_to_qdrant.py` (Gemini pipeline).
Parameters model the external collaborators: `geminiOk` whether
`genai.configure` succeeds, `env` the catalog configuration, `embedBatch`
the Gemini batch embedding (`none` = the call raises), `qdrantOk` whether
creating the Qdrant client and recreating the collection succeed, `upsertOk`
whether the final upsert succeeds.  `store` is the Qdrant state before the
run.  Points pair `unique_items[i]` with `embeddings[i]` exactly as the
`enumerate`-based list comprehension does. -/
def migrate_data (geminiOk : Bool) (env : DbEnv)
    (embedBatch : List String → Option (List Vec))
    (qdrantOk upsertOk : Bool) (store : Store) : MigrateResult :=
  if geminiOk = false then ⟨.geminiConfigError, store, false, false⟩
  else
    match get_db_connection env with
    | .unsupportedBackend _ => ⟨.dbConnectionError, store, false, false⟩
    | .connectFailed => ⟨.dbConnectionError, store, false, false⟩
    | .connected conn =>
      if conn.queryFails then ⟨.queryError, store, true, false⟩
      else
        let unique_items := distinctNames conn.rows
        if unique_items = [] then ⟨.emptyCatalog, store, true, true⟩
        else
          match embedBatch unique_items with
          | none => ⟨.embedError, store, true, true⟩
          | some embeddings =>
            if qdrantOk = false then ⟨.qdrantError, store, true, true⟩
            else
              let store1 := storeSet store COLLECTION_NAME ⟨VECTOR_SIZE, []⟩
              if upsertOk = false then ⟨.upsertError, store1, true, true⟩
              else
                let points := unique_items.enum.map fun p =>
                  (⟨p.1, embeddings.getD p.1 [], p.2⟩ : Point)
                ⟨.done, storeSet store1 COLLECTION_NAME ⟨VECTOR_SIZE, points⟩, true, true⟩

end Migrate

namespace MigrateAzure

/-- Collection name written by `migrate_to_qdrant_with_azure.py` (line 21). -/
def COLLECTION_NAME : String := "taiwan_food_menu_azure"

/-- Embeds `get_db_connection` of `migrate_to_qdrant_with_azure.py`; its body
is behaviourally identical to the one in `migrate_to_qdrant.py`. -/
def get_db_connection (env : DbEnv) : ConnResult :=
  let db_type := lowerString env.dbType
  if db_type = "sqlserver" then
    match env.sqlserver with
    | some conn => .connected conn
    | none => .connectFailed
  else if db_type = "mysql" then
    match env.mysql with
    | some conn => .connected conn
    | none => .connectFailed
  else .unsupportedBackend db_type

/-- Embeds `migrate_data` of `migrate_to_qdrant_with_azure.py` (Azure OpenAI
pipeline).  Differences from the Gemini pipeline: no Gemini configuration
step, the collection name is the azure one, the vector size passed to
`recreate_collection` is `len(embeddings[0])`, and points are built with
`zip(unique_items, embeddings)`. -/
def migrate_data (env : DbEnv)
    (embedBatch : List String → Option (List Vec))
    (qdrantOk upsertOk : Bool) (store : Store) : MigrateResult :=
  match get_db_connection env with
  | .unsupportedBackend _ => ⟨.dbConnectionError, store, false, false⟩
  | .connectFailed => ⟨.dbConnectionError, store, false, false⟩
  | .connected conn =>
    if conn.queryFails then ⟨.queryError, store, true, false⟩
    else
      let unique_items := distinctNames conn.rows
      if unique_items = [] then ⟨.emptyCatalog, store, true, true⟩
      else
        match embedBatch unique_items with
        | none => ⟨.embedError, store, true, true⟩
        | some embeddings =>
          let vector_size := (embeddings.headD []).length
          if qdrantOk = false then ⟨.qdrantError, store, true, true⟩
          else
            let store1 := storeSet store COLLECTION_NAME ⟨vector_size, []⟩
            if upsertOk = false then ⟨.upsertError, store1, true, true⟩
            else
              let points := (unique_items.zip embeddings).enum.map fun p =>
                (⟨p.1, p.2.2, p.2.1⟩ : Point)
              ⟨.done, storeSet store1 COLLECTION_NAME ⟨vector_size, points⟩, true, true⟩

end MigrateAzure

/-- One entry of the `found_items` list the resolver builds:
`{"name": item_name, "score": item_score}`. -/
structure SearchHit where
  name : String
  score : ℚ
deriving Repr, DecidableEq

/-- One operation issued against the vector index, recorded so that frame
properties (which queries mutate the store) can be stated. -/
inductive IndexOp where
  | getCollection (name : String)
  | search (name : String) (queryVector : Vec) (limit : Nat)
  | recreateCollection (name : String) (size : Nat)
  | upsert (name : String) (points : List Point)
deriving Repr, DecidableEq

/-- Whether an index operation is a pure read. -/
def IndexOp.isReadOnly : IndexOp → Bool
  | .getCollection _ => true
  | .search _ _ _ => true
  | .recreateCollection _ _ => false
  | .upsert _ _ => false

/-- Effect of one index operation on the store. -/
def IndexOp.apply (op : IndexOp) (s : Store) : Store :=
  match op with
  | .getCollection _ => s
  | .search _ _ _ => s
  | .recreateCollection n size => storeSet s n ⟨size, []⟩
  | .upsert n pts =>
    match storeFind s n with
    | some c => storeSet s n ⟨c.vectorSize, c.points ++ pts⟩
    | none => s

/-- Effect of a sequence of index operations on the store. -/
def applyOps (ops : List IndexOp) (s : Store) : Store :=
  ops.foldl (fun s op => op.apply s) s

/-- Qdrant `search(..., limit=1)` over a collection's points: the point of
maximal similarity to the query vector (earlier point wins ties the way the
fold below resolves them; Qdrant's tie order is unspecified), as a
`SearchHit` carrying its payload name and score.  `none` iff no points. -/
def bestHit (sim : Vec → Vec → ℚ) (queryVector : Vec) : List Point → Option SearchHit
  | [] => none
  | p :: ps =>
    match bestHit sim queryVector ps with
    | none => some ⟨p.item_name, sim queryVector p.vector⟩
    | some h =>
      if h.score ≤ sim queryVector p.vector then
        some ⟨p.item_name, sim queryVector p.vector⟩
      else some h

namespace App

/-- Collection name read by `app.py` (line 20). -/
def COLLECTION_NAME : String := "taiwan_food_menu_azure"

/-- The fixed admission threshold of `search_similar_item` (line 90):
the float literal 0.65 as the rational 65/100. -/
def score_threshold : ℚ := mkRat 65 100

/-- Availability flags for the resolver's collaborators: whether the two
module-level clients were initialized, and whether each remote call
(`get_collection`, `embeddings.create`, `search`) succeeds. -/
structure AppEnv where
  openai_ok : Bool
  qdrant_ok : Bool
  get_collection_ok : Bool
  embed_ok : Bool
  search_ok : Bool
deriving Repr, DecidableEq

/-- First component of `search_similar_item`'s return value. Each error
string the Python function can return is one constructor; `items` is the
`found_items` list (the non-error result). -/
inductive QueryResult where
  | openaiMissing
  | qdrantMissing
  | collectionUnavailable
  | emptyCollection
  | fatalError
  | items (hits : List SearchHit)
deriving Repr, DecidableEq

/-- Embeds `search_similar_item` of `app.py`.  `sim` is Qdrant's internal
cosine scoring (external to the repository), `embed` the Azure embedding of
a single text, `store` the Qdrant state, `query` the user query.  Returns
the result together with the trace of index operations performed.  Control
flow follows the source: client checks, `get_collection` with an empty-check
on `points_count`, embedding, `search` with `limit=1`, then the threshold
filter building `found_items`. -/
def search_similar_item (env : AppEnv) (sim : Vec → Vec → ℚ)
    (embed : String → Vec) (store : Store) (query : String) :
    QueryResult × List IndexOp :=
  if env.openai_ok = false then (.openaiMissing, [])
  else if env.qdrant_ok = false then (.qdrantMissing, [])
  else if env.get_collection_ok = false then
    (.collectionUnavailable, [.getCollection COLLECTION_NAME])
  else
    match storeFind store COLLECTION_NAME with
    | none => (.collectionUnavailable, [.getCollection COLLECTION_NAME])
    | some coll =>
      if coll.points.length = 0 then
        (.emptyCollection, [.getCollection COLLECTION_NAME])
      else if env.embed_ok = false then
        (.fatalError, [.getCollection COLLECTION_NAME])
      else
        let query_vector := embed query
        if env.search_ok = false then
          (.fatalError, [.getCollection COLLECTION_NAME])
        else
          let raw_search_result := (bestHit sim query_vector coll.points).toList
          let found_items :=
            raw_search_result.filter fun hit => decide (score_threshold ≤ hit.score)
          (.items found_items,
            [.getCollection COLLECTION_NAME, .search COLLECTION_NAME query_vector 1])

end App

/-! Concrete instances used to exercise the model on explicit inputs. -/

/-- A concrete similarity function for exercising the model: score 1 for
identical vectors and 0 otherwise, which is exactly how cosine similarity
behaves on a family of pairwise-orthogonal unit vectors. -/
def matchSim (u v : Vec) : ℚ := if u = v then 1 else 0

/-- A demo embedding provider sending every text to the unit vector `[1]`. -/
def constEmbed : String → Vec := fun _ => [1]

/-- Batch mode of `constEmbed`: one vector per input, never failing. -/
def batchOne : List String → Option (List Vec) := fun texts =>
  some (texts.map constEmbed)

/-- A batch embedding call that raises (the provider is unreachable). -/
def batchFail : List String → Option (List Vec) := fun _ => none

/-- A configuration selecting the sqlserver backend whose catalog holds the
given rows, with the given query-failure behaviour. -/
def envSql (rows : List String) (queryFails : Bool) : DbEnv :=
  ⟨"sqlserver", some ⟨rows, queryFails⟩, none⟩

/-- All resolver collaborators available. -/
def appEnvOk : App.AppEnv := ⟨true, true, true, true, true⟩

/-- A store whose azure collection holds one on-axis point named "beef". -/
def storeOne : Store := [(App.COLLECTION_NAME, ⟨1, [⟨0, [1], "beef"⟩]⟩)]

/-- A store whose azure collection holds one point orthogonal to every
`constEmbed` query, so its score is 0, below the threshold. -/
def storeLow : Store := [(App.COLLECTION_NAME, ⟨1, [⟨0, [0], "tea"⟩]⟩)]

/-! Helper lemmas shared by the claim theorems. -/

/-- The two migration scripts' `get_db_connection` functions are
behaviourally identical. -/
theorem azure_conn_eq_gemini_conn :
    MigrateAzure.get_db_connection = Migrate.get_db_connection := rfl

/-- Sanity check that the embedded threshold is the source's float `0.65`. -/
theorem score_threshold_value : App.score_threshold = 0.65 := by
  norm_num [App.score_threshold, Rat.mkRat_eq_div]

/-- Setting a collection makes it the one found under its name. -/
theorem storeFind_storeSet_self (s : Store) (n : String) (c : Collection) :
    storeFind (storeSet s n c) n = some c := by
  induction s with
  | nil => simp [storeSet, storeFind]
  | cons hd tl ih =>
    obtain ⟨n', c'⟩ := hd
    by_cases h : n' = n
    · simp [storeSet, storeFind, h]
    · simp [storeSet, storeFind, h, ih]

/-- A best hit exists only over a non-empty point list. -/
theorem bestHit_ne_nil (sim : Vec → Vec → ℚ) (qv : Vec) (ps : List Point)
    (h : bestHit sim qv ps ≠ none) : ps ≠ [] := by
  intro hnil
  rw [hnil] at h
  exact h rfl

/-! Claim theorems for the rebuild pipeline. -/

/-- C5: if the catalog read yields zero distinct item names, both rebuilds
abort at the empty-catalog check with the vector index untouched: the
pre-existing store is returned unmodified, and no collection is recreated
or upserted.  The catalog connection was opened and closed. -/
theorem empty_catalog_aborts_untouched (env : DbEnv) (conn : DBConn)
    (embedBatch : List String → Option (List Vec)) (qdrantOk upsertOk : Bool)
    (store : Store)
    (hconn : Migrate.get_db_connection env = .connected conn)
    (hq : conn.queryFails = false) (hrows : conn.rows = []) :
    Migrate.migrate_data true env embedBatch qdrantOk upsertOk store
      = ⟨.emptyCatalog, store, true, true⟩ ∧
    MigrateAzure.migrate_data env embedBatch qdrantOk upsertOk store
      = ⟨.emptyCatalog, store, true, true⟩ := by
  have hconn2 : MigrateAzure.get_db_connection env = .connected conn := by
    rw [azure_conn_eq_gemini_conn]; exact hconn
  constructor
  · simp [Migrate.migrate_data, hconn, hq, hrows, distinctNames]
  · simp [MigrateAzure.migrate_data, hconn2, hq, hrows, distinctNames]

/-- Witness for C5 on a concrete empty catalog and a populated store. -/
theorem empty_catalog_aborts_untouched_case :
    Migrate.migrate_data true (envSql [] false) batchOne true true storeOne
      = ⟨.emptyCatalog, storeOne, true, true⟩ ∧
    MigrateAzure.migrate_data (envSql [] false) batchOne true true storeOne
      = ⟨.emptyCatalog, storeOne, true, true⟩ :=
  empty_catalog_aborts_untouched (envSql [] false) ⟨[], false⟩ batchOne true true
    storeOne (by decide) rfl rfl

/-- C6: if the batch embedding call fails during a rebuild, both rebuilds
abort before any operation on the vector index: the store is returned
unmodified, neither recreated nor upserted. -/
theorem embed_failure_aborts_untouched (env : DbEnv) (conn : DBConn)
    (embedBatch : List String → Option (List Vec)) (qdrantOk upsertOk : Bool)
    (store : Store)
    (hconn : Migrate.get_db_connection env = .connected conn)
    (hq : conn.queryFails = false)
    (hne : distinctNames conn.rows ≠ [])
    (hfail : embedBatch (distinctNames conn.rows) = none) :
    Migrate.migrate_data true env embedBatch qdrantOk upsertOk store
      = ⟨.embedError, store, true, true⟩ ∧
    MigrateAzure.migrate_data env embedBatch qdrantOk upsertOk store
      = ⟨.embedError, store, true, true⟩ := by
  have hconn2 : MigrateAzure.get_db_connection env = .connected conn := by
    rw [azure_conn_eq_gemini_conn]; exact hconn
  constructor
  · simp [Migrate.migrate_data, hconn, hq, hne, hfail]
  · simp [MigrateAzure.migrate_data, hconn2, hq, hne, hfail]

/-- Witness for C6 with a concrete one-item catalog and a failing provider. -/
theorem embed_failure_aborts_untouched_case :
    Migrate.migrate_data true (envSql ["tea"] false) batchFail true true storeOne
      = ⟨.embedError, storeOne, true, true⟩ ∧
    MigrateAzure.migrate_data (envSql ["tea"] false) batchFail true true storeOne
      = ⟨.embedError, storeOne, true, true⟩ :=
  embed_failure_aborts_untouched (envSql ["tea"] false) ⟨["tea"], false⟩ batchFail
    true true storeOne (by decide) rfl (by decide) rfl

/-- C7 (code divergence): when executing the distinct-names query raises, the
exception propagates out of `migrate_data` without `db_connection.close()`
ever running, in both rebuild scripts: the run ends with the connection
opened but not closed.  Shown at a concrete catalog whose query raises. -/
theorem query_error_leaks_connection :
    Migrate.migrate_data true (envSql ["tea"] true) batchOne true true storeOne
      = ⟨.queryError, storeOne, true, false⟩ ∧
    MigrateAzure.migrate_data (envSql ["tea"] true) batchOne true true storeOne
      = ⟨.queryError, storeOne, true, false⟩ :=
  ⟨by decide, by decide⟩

/-- C8: a backend type key whose lowercasing is neither "sqlserver" nor
"mysql" makes `get_db_connection` of both scripts fail with the
unsupported-backend report naming the offending (lowercased) key. -/
theorem unsupported_backend_reports_key (env : DbEnv)
    (h1 : lowerString env.dbType ≠ "sqlserver")
    (h2 : lowerString env.dbType ≠ "mysql") :
    Migrate.get_db_connection env = .unsupportedBackend (lowerString env.dbType) ∧
    MigrateAzure.get_db_connection env = .unsupportedBackend (lowerString env.dbType) := by
  constructor <;>
    simp [Migrate.get_db_connection, MigrateAzure.get_db_connection, h1, h2]

/-- Witness for C8 at the key "postgres". -/
theorem unsupported_backend_reports_key_case :
    Migrate.get_db_connection ⟨"postgres", none, none⟩
      = .unsupportedBackend "postgres" ∧
    MigrateAzure.get_db_connection ⟨"postgres", none, none⟩
      = .unsupportedBackend "postgres" :=
  unsupported_backend_reports_key ⟨"postgres", none, none⟩ (by decide) (by decide)

/-- C9: for the raw catalog ["pork bun", "pork bun", "tea"], the Gemini
rebuild indexes exactly 2 points, one per distinct name, each carrying its
name in the payload (and the ith distinct name paired with the ith vector). -/
theorem dedup_collapses_duplicates (env : DbEnv) (conn : DBConn)
    (embedBatch : List String → Option (List Vec)) (e1 e2 : Vec) (store : Store)
    (hconn : Migrate.get_db_connection env = .connected conn)
    (hq : conn.queryFails = false)
    (hrows : conn.rows = ["pork bun", "pork bun", "tea"])
    (hbatch : embedBatch ["pork bun", "tea"] = some [e1, e2]) :
    storeFind (Migrate.migrate_data true env embedBatch true true store).store
        Migrate.COLLECTION_NAME
      = some ⟨Migrate.VECTOR_SIZE, [⟨0, e1, "pork bun"⟩, ⟨1, e2, "tea"⟩]⟩ := by
  have hd : distinctNames ["pork bun", "pork bun", "tea"] = ["pork bun", "tea"] := by
    decide
  simp [Migrate.migrate_data, hconn, hq, hrows, hd, hbatch, List.enum,
    List.enumFrom, storeFind_storeSet_self]

/-- Witness for C9 with a concrete provider embedding every name to [1]. -/
theorem dedup_collapses_duplicates_case :
    storeFind (Migrate.migrate_data true (envSql ["pork bun", "pork bun", "tea"] false)
        batchOne true true storeOne).store Migrate.COLLECTION_NAME
      = some ⟨Migrate.VECTOR_SIZE, [⟨0, [1], "pork bun"⟩, ⟨1, [1], "tea"⟩]⟩ :=
  dedup_collapses_duplicates (envSql ["pork bun", "pork bun", "tea"] false)
    ⟨["pork bun", "pork bun", "tea"], false⟩ batchOne [1] [1] storeOne
    (by decide) rfl rfl rfl

/-! Claim theorems for the query resolver. -/

/-- C2: every hit in a non-error result of `search_similar_item` passed the
admission filter, so its score is at least the fixed threshold 0.65. -/
theorem search_hits_meet_threshold (env : App.AppEnv) (sim : Vec → Vec → ℚ)
    (embed : String → Vec) (store : Store) (query : String) (l : List SearchHit)
    (h : (App.search_similar_item env sim embed store query).1
      = App.QueryResult.items l) :
    ∀ hit ∈ l, App.score_threshold ≤ hit.score := by
  intro hit hmem
  unfold App.search_similar_item at h
  repeat' split at h
  all_goals simp at h
  rw [← h] at hmem
  simp only [List.mem_filter, decide_eq_true_eq] at hmem
  exact hmem.2

/-- Witness for C2: the one accepted hit of a concrete query meets 0.65. -/
theorem search_hits_meet_threshold_case :
    App.score_threshold ≤ (SearchHit.mk "beef" 1).score :=
  search_hits_meet_threshold appEnvOk matchSim constEmbed storeOne "beef"
    [⟨"beef", 1⟩] (by decide) ⟨"beef", 1⟩ (by decide)

/-- C3: with both clients up, the collection present and non-empty, and the
remote calls succeeding, the resolver result is `items []` (the no-match
signal) exactly when the top hit scores below the threshold, and is the
singleton accepted hit otherwise — a sub-threshold hit is never returned and
the empty list never means anything else. -/
theorem below_threshold_yields_no_match (sim : Vec → Vec → ℚ)
    (embed : String → Vec) (store : Store) (query : String) (coll : Collection)
    (top : SearchHit)
    (hcoll : storeFind store App.COLLECTION_NAME = some coll)
    (htop : bestHit sim (embed query) coll.points = some top) :
    ((App.search_similar_item appEnvOk sim embed store query).1
        = App.QueryResult.items [] ↔ top.score < App.score_threshold) ∧
    (App.score_threshold ≤ top.score →
      (App.search_similar_item appEnvOk sim embed store query).1
        = App.QueryResult.items [top]) := by
  have hne : coll.points ≠ [] := bestHit_ne_nil sim (embed query) coll.points
    (by rw [htop]; exact Option.some_ne_none top)
  have hlen : ¬ coll.points.length = 0 := by
    simpa [List.length_eq_zero] using hne
  have hres : (App.search_similar_item appEnvOk sim embed store query).1
      = App.QueryResult.items
          (if App.score_threshold ≤ top.score then [top] else []) := by
    unfold App.search_similar_item
    simp [appEnvOk, hcoll, hlen, htop, List.filter_cons, decide_eq_true_eq]
  by_cases hts : App.score_threshold ≤ top.score
  · rw [if_pos hts] at hres
    refine ⟨⟨fun he => ?_, fun hlt => absurd hts (not_le.mpr hlt)⟩, fun _ => hres⟩
    rw [hres] at he
    simp at he
  · rw [if_neg hts] at hres
    exact ⟨⟨fun _ => not_le.mp hts, fun _ => hres⟩, fun hts2 => absurd hts2 hts⟩

/-- Witness for C3: a top score of 0 is below 0.65 and yields `items []`. -/
theorem below_threshold_yields_no_match_case :
    (App.search_similar_item appEnvOk matchSim constEmbed storeLow "tea").1
      = App.QueryResult.items [] :=
  (below_threshold_yields_no_match matchSim constEmbed storeLow "tea"
      ⟨1, [⟨0, [0], "tea"⟩]⟩ ⟨"tea", 0⟩ (by decide) (by decide)).1.mpr (by decide)

/-- C10: the resolver is read-only with respect to the vector index: every
index operation it issues is a read (`get_collection` or `search`), and
replaying its operation trace against any store leaves that store unchanged. -/
theorem search_touches_index_read_only (env : App.AppEnv) (sim : Vec → Vec → ℚ)
    (embed : String → Vec) (store : Store) (query : String) :
    (App.search_similar_item env sim embed store query).2.all
        IndexOp.isReadOnly = true ∧
    applyOps (App.search_similar_item env sim embed store query).2 store
      = store := by
  unfold App.search_similar_item
  repeat' split
  all_goals simp [applyOps, IndexOp.apply, IndexOp.isReadOnly]

/-! Claim theorems relating rebuild and resolver (round trip, dimensions). -/

/-- C1 fails as stated: the Gemini rebuild `migrate_to_qdrant.migrate_data`
writes collection "taiwan_food_menu", which is not the collection
"taiwan_food_menu_azure" the resolver reads, so after rebuilding a
single-item catalog with it (starting from an empty index) the resolver
cannot even find its collection — no SearchHit of score 1.0 is returned. -/
theorem round_trip_collection_mismatch :
    Migrate.COLLECTION_NAME ≠ App.COLLECTION_NAME ∧
    (Migrate.migrate_data true (envSql ["beef noodle soup"] false) batchOne
        true true []).outcome = .done ∧
    (App.search_similar_item appEnvOk matchSim constEmbed
        (Migrate.migrate_data true (envSql ["beef noodle soup"] false) batchOne
          true true []).store "beef noodle soup").1
      = App.QueryResult.collectionUnavailable :=
  ⟨by decide, by decide, by decide⟩

/-- C1, amended to the Azure rebuild: `migrate_to_qdrant_with_azure.py`
writes exactly the collection `app.py` reads, and for a catalog of one item
whose query-embedding scores 1 against itself (cosine of identical
vectors), rebuild followed by resolving that item name returns the single
SearchHit with that name and score 1. -/
theorem azure_round_trip_exact_match (item : String) (env : DbEnv)
    (conn : DBConn) (embed : String → Vec)
    (embedBatch : List String → Option (List Vec)) (sim : Vec → Vec → ℚ)
    (hconn : MigrateAzure.get_db_connection env = .connected conn)
    (hq : conn.queryFails = false) (hrows : conn.rows = [item])
    (hbatch : embedBatch [item] = some [embed item])
    (hsim : sim (embed item) (embed item) = 1) :
    MigrateAzure.COLLECTION_NAME = App.COLLECTION_NAME ∧
    (MigrateAzure.migrate_data env embedBatch true true []).outcome = .done ∧
    (App.search_similar_item appEnvOk sim embed
        (MigrateAzure.migrate_data env embedBatch true true []).store item).1
      = App.QueryResult.items [⟨item, 1⟩] := by
  have hd : distinctNames [item] = [item] := by simp [distinctNames]
  have hrun : MigrateAzure.migrate_data env embedBatch true true []
      = ⟨.done,
          [(MigrateAzure.COLLECTION_NAME,
            ⟨(embed item).length, [⟨0, embed item, item⟩]⟩)], true, true⟩ := by
    simp [MigrateAzure.migrate_data, hconn, hq, hrows, hd, hbatch, storeSet,
      List.enum, List.enumFrom]
  have hθ : decide (App.score_threshold ≤ (1 : ℚ)) = true := by decide
  refine ⟨rfl, by rw [hrun], ?_⟩
  rw [hrun]
  unfold App.search_similar_item
  simp [appEnvOk, storeFind, MigrateAzure.COLLECTION_NAME, App.COLLECTION_NAME,
    bestHit, hsim, List.filter_cons, hθ]

/-- Witness for the amended C1 at the catalog ["beef noodle soup"]. -/
theorem azure_round_trip_exact_match_case :
    MigrateAzure.COLLECTION_NAME = App.COLLECTION_NAME ∧
    (MigrateAzure.migrate_data (envSql ["beef noodle soup"] false) batchOne
        true true []).outcome = .done ∧
    (App.search_similar_item appEnvOk matchSim constEmbed
        (MigrateAzure.migrate_data (envSql ["beef noodle soup"] false) batchOne
          true true []).store "beef noodle soup").1
      = App.QueryResult.items [⟨"beef noodle soup", 1⟩] :=
  azure_round_trip_exact_match "beef noodle soup"
    (envSql ["beef noodle soup"] false) ⟨["beef noodle soup"], false⟩
    constEmbed batchOne matchSim (by decide) rfl rfl rfl (by decide)

/-- C4 fails as stated: the Gemini rebuild passes the hardcoded constant 768
to collection creation even when the embedding output has length 1. -/
theorem gemini_dimension_hardcoded :
    (storeFind (Migrate.migrate_data true (envSql ["beef noodle soup"] false)
        batchOne true true []).store Migrate.COLLECTION_NAME).map
        Collection.vectorSize = some 768 ∧
    constEmbed "beef noodle soup" = [1] ∧ ([(1 : ℚ)] : Vec).length = 1 ∧
    (768 : Nat) ≠ 1 :=
  ⟨by decide, rfl, rfl, by decide⟩

/-- C4, amended: only the Azure rebuild determines the collection's vector
dimension from the embedding output (the length of the first returned
vector); the Gemini rebuild always configures the hardcoded VECTOR_SIZE
(768). -/
theorem rebuild_dimension_sources (env : DbEnv) (conn : DBConn)
    (embedBatch : List String → Option (List Vec)) (embs : List Vec)
    (store : Store)
    (hconn : Migrate.get_db_connection env = .connected conn)
    (hq : conn.queryFails = false)
    (hne : distinctNames conn.rows ≠ [])
    (hbatch : embedBatch (distinctNames conn.rows) = some embs) :
    (storeFind (MigrateAzure.migrate_data env embedBatch true true store).store
        MigrateAzure.COLLECTION_NAME).map Collection.vectorSize
      = some (embs.headD []).length ∧
    (storeFind (Migrate.migrate_data true env embedBatch true true store).store
        Migrate.COLLECTION_NAME).map Collection.vectorSize
      = some Migrate.VECTOR_SIZE := by
  have hconn2 : MigrateAzure.get_db_connection env = .connected conn := by
    rw [azure_conn_eq_gemini_conn]; exact hconn
  constructor
  · simp [MigrateAzure.migrate_data, hconn2, hq, hne, hbatch,
      storeFind_storeSet_self]
  · simp [Migrate.migrate_data, hconn, hq, hne, hbatch, storeFind_storeSet_self]

/-- Witness for the amended C4: dimension 1 from a length-1 embedding on the
Azure side, dimension 768 on the Gemini side, for the same catalog. -/
theorem rebuild_dimension_sources_case :
    (storeFind (MigrateAzure.migrate_data (envSql ["tea"] false) batchOne
        true true []).store MigrateAzure.COLLECTION_NAME).map
        Collection.vectorSize = some 1 ∧
    (storeFind (Migrate.migrate_data true (envSql ["tea"] false) batchOne
        true true []).store Migrate.COLLECTION_NAME).map
        Collection.vectorSize = some 768 :=
  rebuild_dimension_sources (envSql ["tea"] false) ⟨["tea"], false⟩ batchOne
    [[1]] [] (by decide) rfl (by decide) rfl

end FixFoodName
